import Mathlib

/-!
Verification development for `torch/distributed/_tools/runtime_estimator.py`
(the `RuntimeEstimator` dispatch mode).

The Python module is shallowly embedded below.  Tensors are modelled by their
metadata (shape, dtype, storage size in bytes), elapsed times and device
capabilities by rational numbers, raised Python exceptions by an explicit
`Except` error channel, and the mutable module/class state (the scope runtime
records, the order logs, the no-fallback set) by explicit state passing.
Python call binding is modelled explicitly because the source declares two
`@classmethod`s whose parameter lists have no `cls` slot, which makes the
arity of the bound calls observable behaviour.
-/

/-- Floating and non-floating element dtypes used by the estimator
(`torch.float16`, `torch.bfloat16`, `torch.float32`, `torch.float64`, and a
couple of non-floating ones so that the filters are not vacuous). -/
inductive Dtype where
  | float16
  | bfloat16
  | float32
  | float64
  | int64
  | boolean
  deriving DecidableEq, Repr

/-- `RuntimeEstimator._float_types` (source lines 135-140): the set of
floating dtypes, modelled as a list with set membership. -/
def _float_types : List Dtype :=
  [Dtype.float16, Dtype.bfloat16, Dtype.float32, Dtype.float64]

/-- A (fake) tensor: the metadata the estimator reads.  `nbytes` models
`t.untyped_storage().nbytes()`. -/
structure Tensor where
  shape : List Nat
  dtype : Dtype
  nbytes : Nat
  deriving DecidableEq, Repr

/-- A leaf of the flattened argument/output pytree: a tensor or a non-tensor
scalar (sizes, flags, ...). -/
inductive PyVal where
  | tensor (t : Tensor)
  | scalar (n : Int)
  deriving DecidableEq, Repr

/-- Operator overload packets (`func._overloadpacket`) intercepted by the
estimator: every member of the `_VIEW_OPS` and `_CREATE_OPS` sets of the
source, plus a few compute packets (`aten.mm`, `aten.addmm`, `aten.bmm`,
`aten.add`, `aten.mul`, `aten.batch_norm`) used by the theorems.
`u_view` stands for `aten._unsafe_view`. -/
inductive Packet where
  | lift_fresh
  | t
  | transpose
  | view
  | detach
  | u_view
  | split
  | adjoint
  | as_strided
  | diagonal
  | expand
  | expand_as
  | movedim
  | permute
  | select
  | squeeze
  | mT
  | mH
  | real
  | imag
  | view_as
  | unflatten
  | unfold
  | unbind
  | unsqueeze
  | vsplit
  | hsplit
  | split_with_sizes
  | swapaxes
  | swapdims
  | chunk
  | randint
  | randn
  | rand
  | randn_like
  | rand_like
  | randint_like
  | arange
  | ones_like
  | zeros_like
  | mm
  | addmm
  | bmm
  | add
  | mul
  | batch_norm
  deriving DecidableEq, Repr

/-- `_VIEW_OPS` (source lines 30-62): view packets that need no fallback
kernel.  The Python value is a `set`; membership is all that is used. -/
def _VIEW_OPS : List Packet :=
  [Packet.lift_fresh, Packet.t, Packet.transpose, Packet.view, Packet.detach,
   Packet.u_view, Packet.split, Packet.adjoint, Packet.as_strided,
   Packet.diagonal, Packet.expand, Packet.expand_as, Packet.movedim,
   Packet.permute, Packet.select, Packet.squeeze, Packet.mT, Packet.mH,
   Packet.real, Packet.imag, Packet.view_as, Packet.unflatten, Packet.unfold,
   Packet.unbind, Packet.unsqueeze, Packet.vsplit, Packet.hsplit,
   Packet.split_with_sizes, Packet.swapaxes, Packet.swapdims, Packet.chunk]

/-- `_CREATE_OPS` (source lines 64-74): trivial tensor-creation packets. -/
def _CREATE_OPS : List Packet :=
  [Packet.randint, Packet.randn, Packet.rand, Packet.randn_like,
   Packet.rand_like, Packet.randint_like, Packet.arange, Packet.ones_like,
   Packet.zeros_like]

/-- `_IGNORE_OPS = _VIEW_OPS | _CREATE_OPS` (source line 76). -/
def _IGNORE_OPS : List Packet := _VIEW_OPS ++ _CREATE_OPS

/-- The Python exceptions that the embedded code can raise. -/
inductive PyError where
  | typeError
  | assertionError
  | notImplementedError
  | runtimeError
  | outOfMemoryError
  deriving DecidableEq, Repr

/-- Shape of a real output of the benchmarked kernel, as classified by
`map_out` (source lines 234-250):
* `inputImpl fake` - `id(e)` is a key of `inp_impls`, i.e. the output object
  is one of the realized inputs; `map_out` returns the originating fake
  tensor `fake`;
* `aliased` - the output is a non-sparse tensor whose `_typed_storage()`
  is in `storages` (it shares storage with some input) but `id(e)` is not in
  `inp_impls`: `map_out` raises the not-implemented exception;
* `fresh t` - a tensor with its own storage; `map_out` converts it to a new
  fake tensor with metadata `t`;
* `nonTensor n` - a non-tensor output, returned unchanged. -/
inductive RealOut where
  | inputImpl (fake : Tensor)
  | aliased
  | fresh (t : Tensor)
  | nonTensor (n : Int)
  deriving DecidableEq, Repr

/-- One intercepted operation invocation, together with the behaviour of its
real (device) execution, which is external to the module:
* `packet` is `func._overloadpacket` and `inplaceView` says whether
  `torch.Tag.inplace_view in func.tags`;
* `flatArgs` is `pytree.tree_flatten((args, kwargs))`;
* `flatOuts` is the flattened symbolic (fake-mode) output of
  `func(*args, **kwargs)`;
* `realExec` is `none` when realization and the real execution succeed, and
  `some e` when some step of them raises `e`;
* `realOuts` classifies the outputs of the real run for `map_out`;
* `cuda_time` is the elapsed time reported by the device events for the
  three timed iterations (so the mean is `cuda_time / 3`). -/
structure Op where
  packet : Packet
  inplaceView : Bool
  flatArgs : List PyVal
  flatOuts : List PyVal
  realExec : Option PyError
  realOuts : List RealOut
  cuda_time : Rat
  deriving DecidableEq, Repr

/-- Python positional-argument binding: a call that supplies `nargs`
arguments to a function declaring `nparams` positional parameters raises
`TypeError` unless the counts match; otherwise it runs the body. -/
def pyCall (nparams nargs : Nat) {α : Type} (body : Except PyError α) :
    Except PyError α :=
  if nargs = nparams then body else Except.error PyError.typeError

/-- A call `cls.f(a1, ..., an)` where `f` is declared with `@classmethod`:
the binding prepends the class object, so the function receives `n + 1`
arguments against its declared parameter list. -/
def pyClassmethodCall (nparams nargs : Nat) {α : Type}
    (body : Except PyError α) : Except PyError α :=
  pyCall nparams (nargs + 1) body

/-- Device capability provider (external collaborator): CUDA presence,
`get_device_tflops` (which, per the source comment on line 369, returns
peta-FLOPs per second), and `get_gpu_dram_gbps`. -/
structure DeviceCaps where
  cuda_available : Bool
  get_device_tflops : Dtype → Rat
  gpu_memory_bandwidth : Rat

/-- The flop-formula registry (external collaborator,
`torch.utils.flop_counter.flop_registry`): packet to optional flop-count
function of the flattened arguments and output. -/
def FlopRegistry : Type := Packet → Option (List PyVal → List PyVal → Rat)

/-- `_PYTORCH_MIN_ALLOCATE` (source lines 25-27) in the default environment
where `PYTORCH_NO_CUDA_MEMORY_CACHING` is unset: `2 ** 9`. -/
def _PYTORCH_MIN_ALLOCATE : Nat := 2 ^ 9

/-- `get_num_bytes` (source lines 299-313): the storage size rounded up to
the minimum allocation granularity,
`math.ceil(num_bytes / _PYTORCH_MIN_ALLOCATE) * _PYTORCH_MIN_ALLOCATE`. -/
def get_num_bytes (t : Tensor) : Nat :=
  ((t.nbytes + _PYTORCH_MIN_ALLOCATE - 1) / _PYTORCH_MIN_ALLOCATE) *
    _PYTORCH_MIN_ALLOCATE

/-- Body of `_get_transfer_time` (source lines 288-327): summed rounded byte
counts of tensor arguments plus tensor outputs, divided by the DRAM
bandwidth.  This is the body of the function; the *call* made by the
strategies goes through `pyClassmethodCall` below because the source
declares the function as a `@classmethod` with only the two parameters
`(flat_args_kwargs, flat_outs)`. -/
def _get_transfer_time (caps : DeviceCaps)
    (flat_args_kwargs flat_outs : List PyVal) : Rat :=
  let read_bytes : Nat :=
    (flat_args_kwargs.filterMap fun v =>
      match v with
      | PyVal.tensor t => some (get_num_bytes t)
      | PyVal.scalar _ => none).sum
  let write_bytes : Nat :=
    (flat_outs.filterMap fun v =>
      match v with
      | PyVal.tensor t => some (get_num_bytes t)
      | PyVal.scalar _ => none).sum
  let counted_bytes : Nat := read_bytes + write_bytes
  (counted_bytes : Rat) / caps.gpu_memory_bandwidth

/-- The set comprehension of source lines 415-419 (and 681-685): the
distinct floating dtypes among the tensor outputs, modelled as a
deduplicated list (its length is the cardinality of the Python set). -/
def outDtypes (op : Op) : List Dtype :=
  (op.flatOuts.filterMap fun v =>
    match v with
    | PyVal.tensor t => if t.dtype ∈ _float_types then some t.dtype else none
    | PyVal.scalar _ => none).dedup

/-- `get_compute_time` (source lines 350-380): when the packet has a
registered flop formula, assert a single output dtype, take 75 percent of
the peak throughput, halve the flop count (`MACs`), and return the time in
nanoseconds; otherwise `0.0`. -/
def get_compute_time (caps : DeviceCaps) (registry : FlopRegistry) (op : Op)
    (out_dtypes : List Dtype) : Except PyError Rat :=
  match registry op.packet with
  | some flop_count_func =>
      if out_dtypes.length = 1 then
        let dtype := out_dtypes.headD Dtype.float32
        let peak_gpu_flops := caps.get_device_tflops dtype * 1e15
        let peak_empirical_flops := (0.75 : Rat) * peak_gpu_flops
        let flop_count := flop_count_func op.flatArgs op.flatOuts / 2
        Except.ok (flop_count / peak_empirical_flops * 1e9)
      else Except.error PyError.assertionError
  | none => Except.ok 0

/-- `_roofline_estimate` (source lines 331-429): assert CUDA, run the
operation symbolically, and for packets outside `_IGNORE_OPS` combine the
transfer and compute times as `max(transfer, compute) / 1e6` milliseconds.
The transfer time is obtained by the bound call
`cls._get_transfer_time(flat_args_kwargs, flat_outs)` - two arguments to a
two-parameter `@classmethod`, hence three after binding. -/
def _roofline_estimate (caps : DeviceCaps) (registry : FlopRegistry)
    (op : Op) : Except PyError (List PyVal × Rat) :=
  if caps.cuda_available then
    let out := op.flatOuts
    if op.packet ∈ _IGNORE_OPS then Except.ok (out, 0)
    else
      match pyClassmethodCall 2 2
          (Except.ok (_get_transfer_time caps op.flatArgs op.flatOuts)) with
      | Except.error e => Except.error e
      | Except.ok transfer_time =>
          match get_compute_time caps registry op (outDtypes op) with
          | Except.error e => Except.error e
          | Except.ok compute_time =>
              Except.ok (out, max transfer_time compute_time / 1e6)
  else Except.error PyError.assertionError

/-- `_LEARNED_OPS` (source line 79): initialised to the empty dict and never
written to - `register_timing_formula` (lines 486-509) stores the decorated
functions in `flop_registry`, not here. -/
def _LEARNED_OPS : List Packet := []

/-- Body of `_learned_estimate_predictor` (source lines 431-646).  Its first
executable statements apply `@register_timing_formula([aten.mm, aten.addmm])`
and friends, and `register_timing_formula` raises `RuntimeError` for any
target already present in `flop_registry` (line 501); `aten.mm` is present in
the imported registry, so the body fails on such a registry before reaching
the `func_packet in _LEARNED_OPS` test (line 632); on a registry without
`aten.mm` the registrations succeed and, `_LEARNED_OPS` being empty, the body
returns `0.0`. -/
def _learned_estimate_predictor_body (registry : FlopRegistry) (op : Op) :
    Except PyError Rat :=
  if (registry Packet.mm).isSome then Except.error PyError.runtimeError
  else if op.packet ∈ _LEARNED_OPS then Except.error PyError.assertionError
  else Except.ok 0

/-- `_learned_estimate` (source lines 648-695): same shape as
`_roofline_estimate`, with the compute time produced by the bound call
`cls._learned_estimate_predictor(func_packet, args, kwargs, out, out_dtypes)`
- five arguments to a five-parameter `@classmethod` (no `cls` slot, lines
431-432), hence six after binding. -/
def _learned_estimate (caps : DeviceCaps) (registry : FlopRegistry)
    (op : Op) : Except PyError (List PyVal × Rat) :=
  if caps.cuda_available then
    let out := op.flatOuts
    if op.packet ∈ _IGNORE_OPS then Except.ok (out, 0)
    else
      match pyClassmethodCall 2 2
          (Except.ok (_get_transfer_time caps op.flatArgs op.flatOuts)) with
      | Except.error e => Except.error e
      | Except.ok transfer_time =>
          match pyClassmethodCall 5 5
              (_learned_estimate_predictor_body registry op) with
          | Except.error e => Except.error e
          | Except.ok compute_time =>
              Except.ok (out, max transfer_time compute_time / 1e6)
  else Except.error PyError.assertionError

/-- `map_out` (source lines 234-250), on the classified real output: raise
the not-implemented exception for an untracked storage alias, map a realized
input back to its fake operand, convert a fresh tensor via
`from_real_tensor`, pass anything else through. -/
def map_out (o : RealOut) : Except PyError PyVal :=
  match o with
  | RealOut.aliased => Except.error PyError.notImplementedError
  | RealOut.inputImpl fake => Except.ok (PyVal.tensor fake)
  | RealOut.fresh t => Except.ok (PyVal.tensor t)
  | RealOut.nonTensor n => Except.ok (PyVal.scalar n)

/-- `pytree.tree_map(map_out, r)` (source line 252) on the flattened real
outputs: mapping stops at the first output for which `map_out` raises, and
the exception propagates. -/
def map_outs : List RealOut → Except PyError (List PyVal)
  | [] => Except.ok []
  | o :: os =>
      match map_out o with
      | Except.error e => Except.error e
      | Except.ok v =>
          match map_outs os with
          | Except.error e => Except.error e
          | Except.ok vs => Except.ok (v :: vs)

/-- The tensors materialized by the `to_real_tensor` comprehension (source
lines 194-206): every (fake) tensor operand in the flattened arguments. -/
def realizedTensors (flat_args : List PyVal) : List Tensor :=
  flat_args.filterMap fun v =>
    match v with
    | PyVal.tensor t => some t
    | PyVal.scalar _ => none

/-- `_maybe_run_and_benchmark_fallback_kernel` (source lines 160-252).
Returns the mapped outputs and the mean time `cuda_time / 3`
(`actual_iters = 3`, lines 209-220) alongside the list of tensors that were
realized: an operation whose packet carries the `inplace_view` tag is
rejected (line 185-186) before `to_real_tensor` runs, so nothing is
realized for it; a failure of realization or of the real execution
propagates; otherwise the real outputs are mapped back by `map_out`. -/
def _maybe_run_and_benchmark_fallback_kernel (op : Op) :
    Except PyError (List PyVal × Rat) × List Tensor :=
  if op.inplaceView then (Except.error PyError.notImplementedError, [])
  else
    let realized := realizedTensors op.flatArgs
    match op.realExec with
    | some e => (Except.error e, realized)
    | none =>
        match map_outs op.realOuts with
        | Except.error e => (Except.error e, realized)
        | Except.ok outs => (Except.ok (outs, op.cuda_time / 3), realized)

/-- `_benchmark_estimate` (source lines 254-285): assert that `fake_mode`
was assigned, skip the fallback kernel for `_VIEW_OPS` packets, catch
exactly `NotImplementedError` from the kernel by recording the packet in
`_no_fallback_kernel` and running the operation symbolically with
`mean_op_time = 0.0`; every other exception propagates.  The class-level
mutable set `_no_fallback_kernel` (line 141) is threaded explicitly, and the
realized-tensor list of the kernel is returned alongside. -/
def _benchmark_estimate (fake_mode_set : Bool) (no_fallback : Finset Packet)
    (op : Op) :
    Except PyError ((List PyVal × Rat) × Finset Packet) × List Tensor :=
  if fake_mode_set then
    if op.packet ∈ _VIEW_OPS then
      (Except.ok ((op.flatOuts, 0), no_fallback), [])
    else
      match _maybe_run_and_benchmark_fallback_kernel op with
      | (Except.ok (res, t), rz) => (Except.ok ((res, t), no_fallback), rz)
      | (Except.error PyError.notImplementedError, rz) =>
          (Except.ok ((op.flatOuts, 0), insert op.packet no_fallback), rz)
      | (Except.error e, rz) => (Except.error e, rz)
  else (Except.error PyError.assertionError, [])

/-- The mutable state of a `RuntimeEstimator` instance together with the
registration side effects of activation: the accumulators of `__init__`
(source lines 144-156), the `ModTracker` user-hook registration, the tracker
and dispatch-mode activation flags, and the class attribute `fake_mode`. -/
structure EstimatorState where
  total_runtime : Rat
  mod_runtimes : String → Bool → Rat
  mod_fw_pre_order : List String
  mod_bw_pre_order : List String
  mod_fw_post_order : List String
  mod_bw_post_order : List String
  user_hooks_registered : Bool
  tracker_active : Bool
  dispatch_active : Bool
  fake_mode_set : Bool

/-- The state produced by `__init__` (source lines 144-156): zero
accumulators (the runtimes dictionary is a `defaultdict` defaulting to
`0.0`, modelled as the constantly-zero function keyed by module FQN and the
backward flag), empty order logs, nothing registered. -/
def initState : EstimatorState :=
  { total_runtime := 0
    mod_runtimes := fun _ _ => 0
    mod_fw_pre_order := []
    mod_bw_pre_order := []
    mod_fw_post_order := []
    mod_bw_post_order := []
    user_hooks_registered := false
    tracker_active := false
    dispatch_active := false
    fake_mode_set := false }

/-- `__enter__` (source lines 773-801): if no `FakeTensorMode` is active the
assertion on lines 775-777 raises before any statement mutates the
instance, so the state is returned unchanged with the error; otherwise the
class `fake_mode` is assigned, all accumulators and order logs are cleared,
the four user hooks are registered with the `ModTracker`, and the tracker
and the dispatch mode are entered. -/
def __enter__ (activeFakeMode : Bool) (st : EstimatorState) :
    EstimatorState × Option PyError :=
  if activeFakeMode then
    ({ st with
        fake_mode_set := true
        total_runtime := 0
        mod_runtimes := fun _ _ => 0
        mod_fw_pre_order := []
        mod_bw_pre_order := []
        mod_fw_post_order := []
        mod_bw_post_order := []
        user_hooks_registered := true
        tracker_active := true
        dispatch_active := true }, none)
  else (st, some PyError.assertionError)

/-- `__exit__` (source lines 803-812), reached by the `with` protocol both
on normal completion and when an exception `exc` propagates out of the
active window: it prints the totals, leaves the dispatch mode
(`super().__exit__`), clears the tracker user hooks and exits the tracker.
No accumulator or order log is touched. -/
def __exit__ (_exc : Option PyError) (st : EstimatorState) : EstimatorState :=
  { st with
      dispatch_active := false
      user_hooks_registered := false
      tracker_active := false }

/-- One invocation as seen by `__torch_dispatch__`: the set of open module
scopes reported by `self._mod_tracker.parents`, the phase flag
`self._mod_tracker.is_bw`, and the elapsed `op_time` returned by the active
strategy. -/
structure Invocation where
  parents : Finset String
  is_bw : Bool
  op_time : Rat
  deriving DecidableEq

/-- `__torch_dispatch__` (source lines 727-737), given the `(res, op_time)`
pair of the strategy: add `op_time` to the `bw` (respectively `fw`)
accumulator of every scope in `parents`, and to `total_runtime`. -/
def __torch_dispatch__ (st : EstimatorState) (inv : Invocation) :
    EstimatorState :=
  { st with
      mod_runtimes := fun s p =>
        if s ∈ inv.parents ∧ inv.is_bw = p then
          st.mod_runtimes s p + inv.op_time
        else st.mod_runtimes s p
      total_runtime := st.total_runtime + inv.op_time }

/-- The accumulation of a whole active window: every intercepted invocation
of the trace routed through `__torch_dispatch__` in order. -/
def runDispatch (st : EstimatorState) (trace : List Invocation) :
    EstimatorState :=
  trace.foldl __torch_dispatch__ st

/-- Specification-side attribution sum (spec section 8): the summed elapsed
times of exactly those invocations of the trace during which scope `S` was
open and the phase flag equalled `P`. -/
def windowTime (trace : List Invocation) (S : String) (P : Bool) : Rat :=
  ((trace.filter fun i => decide (S ∈ i.parents ∧ i.is_bw = P)).map
    Invocation.op_time).sum

lemma windowTime_nil (S : String) (P : Bool) : windowTime [] S P = 0 := rfl

lemma windowTime_cons (i : Invocation) (tr : List Invocation) (S : String)
    (P : Bool) :
    windowTime (i :: tr) S P =
      (if S ∈ i.parents ∧ i.is_bw = P then i.op_time else 0) +
        windowTime tr S P := by
  by_cases h : S ∈ i.parents ∧ i.is_bw = P
  · simp [windowTime, List.filter_cons, h]
  · simp [windowTime, List.filter_cons, h]

lemma runDispatch_mod_runtimes (trace : List Invocation)
    (st : EstimatorState) (S : String) (P : Bool) :
    (runDispatch st trace).mod_runtimes S P =
      st.mod_runtimes S P + windowTime trace S P := by
  induction trace generalizing st with
  | nil => simp [runDispatch, windowTime_nil]
  | cons i tr ih =>
      have hstep : runDispatch st (i :: tr) =
          runDispatch (__torch_dispatch__ st i) tr := rfl
      rw [hstep, ih, windowTime_cons]
      simp only [__torch_dispatch__]
      by_cases h : S ∈ i.parents ∧ i.is_bw = P
      · rw [if_pos h, if_pos h]
        ring
      · rw [if_neg h, if_neg h]
        ring

lemma runDispatch_total (trace : List Invocation) (st : EstimatorState) :
    (runDispatch st trace).total_runtime =
      st.total_runtime + (trace.map Invocation.op_time).sum := by
  induction trace generalizing st with
  | nil => simp [runDispatch]
  | cons i tr ih =>
      have hstep : runDispatch st (i :: tr) =
          runDispatch (__torch_dispatch__ st i) tr := rfl
      rw [hstep, ih]
      simp only [__torch_dispatch__, List.map_cons, List.sum_cons]
      ring

lemma windowTime_mono (trace : List Invocation) (anc desc : String)
    (P : Bool)
    (hsub : ∀ i ∈ trace, desc ∈ i.parents → anc ∈ i.parents)
    (hnn : ∀ i ∈ trace, 0 ≤ i.op_time) :
    windowTime trace desc P ≤ windowTime trace anc P := by
  induction trace with
  | nil => simp [windowTime_nil]
  | cons i tr ih =>
      rw [windowTime_cons, windowTime_cons]
      have htail : windowTime tr desc P ≤ windowTime tr anc P :=
        ih (fun j hj => hsub j (List.mem_cons_of_mem i hj))
          (fun j hj => hnn j (List.mem_cons_of_mem i hj))
      by_cases hd : desc ∈ i.parents ∧ i.is_bw = P
      · have ha : anc ∈ i.parents ∧ i.is_bw = P :=
          ⟨hsub i (List.mem_cons_self i tr) hd.1, hd.2⟩
        rw [if_pos hd, if_pos ha]
        exact add_le_add le_rfl htail
      · rw [if_neg hd]
        by_cases ha : anc ∈ i.parents ∧ i.is_bw = P
        · rw [if_pos ha]
          have hi : 0 ≤ i.op_time := hnn i (List.mem_cons_self i tr)
          calc 0 + windowTime tr desc P = windowTime tr desc P := by ring
            _ ≤ windowTime tr anc P := htail
            _ ≤ i.op_time + windowTime tr anc P := by linarith
        · rw [if_neg ha]
          simpa using htail

/-- Claim C2.  Starting from a fresh activation (`__enter__` with a live
fake mode), for every scope `S` and phase `P` the accumulated runtime
recorded for `(S, P)` equals the sum of the elapsed times of exactly those
invocations during which the tracker reported `S` open and the phase flag
equalled `P`; the total runtime equals the sum of every elapsed time; and
whenever one scope is open at least whenever another is (ancestor openness)
and elapsed times are nonnegative, the former accumulates at least as much
as the latter (superset attribution, not a partition). -/
theorem scope_attribution_correct (st : EstimatorState)
    (trace : List Invocation) (S : String) (P : Bool) :
    (runDispatch (__enter__ true st).1 trace).mod_runtimes S P =
        windowTime trace S P ∧
      (runDispatch (__enter__ true st).1 trace).total_runtime =
        (trace.map Invocation.op_time).sum ∧
      ∀ anc desc : String,
        (∀ i ∈ trace, desc ∈ i.parents → anc ∈ i.parents) →
        (∀ i ∈ trace, 0 ≤ i.op_time) →
        (runDispatch (__enter__ true st).1 trace).mod_runtimes desc P ≤
          (runDispatch (__enter__ true st).1 trace).mod_runtimes anc P := by
  have hmod : ∀ S' : String, ∀ P' : Bool,
      (runDispatch (__enter__ true st).1 trace).mod_runtimes S' P' =
        windowTime trace S' P' := by
    intro S' P'
    rw [runDispatch_mod_runtimes]
    simp [__enter__]
  refine ⟨hmod S P, ?_, ?_⟩
  · rw [runDispatch_total]
    simp [__enter__]
  · intro anc desc hsub hnn
    rw [hmod desc P, hmod anc P]
    exact windowTime_mono trace anc desc P hsub hnn

/-- Concrete two-invocation window used to witness claim C2. -/
def traceC2 : List Invocation :=
  [{ parents := {"l1"}, is_bw := false, op_time := 3 },
   { parents := {"l1", "l1.l2"}, is_bw := false, op_time := 4 }]

/-- Witness for claim C2 on `traceC2`: the hypotheses of the third conjunct
hold for the ancestor `l1` of `l1.l2`, and the conclusions are obtained by
applying `scope_attribution_correct`. -/
theorem scope_attribution_correct_witness :
    (∀ i ∈ traceC2, "l1.l2" ∈ i.parents → "l1" ∈ i.parents) ∧
      (∀ i ∈ traceC2, 0 ≤ i.op_time) ∧
      (runDispatch (__enter__ true initState).1 traceC2).mod_runtimes
          "l1" false = windowTime traceC2 "l1" false ∧
      (runDispatch (__enter__ true initState).1 traceC2).total_runtime =
        (traceC2.map Invocation.op_time).sum ∧
      (runDispatch (__enter__ true initState).1 traceC2).mod_runtimes
          "l1.l2" false ≤
        (runDispatch (__enter__ true initState).1 traceC2).mod_runtimes
          "l1" false :=
  ⟨by decide, by decide,
    (scope_attribution_correct initState traceC2 "l1" false).1,
    (scope_attribution_correct initState traceC2 "l1" false).2.1,
    (scope_attribution_correct initState traceC2 "l1.l2" false).2.2 "l1"
      "l1.l2" (by decide) (by decide)⟩

/-- A mid-window state used against claim C7: the window has accumulated a
total of `5` ms and one pre-forward log entry while active. -/
def stC7 : EstimatorState :=
  { initState with
      total_runtime := 5
      mod_fw_pre_order := ["l1"]
      user_hooks_registered := true
      tracker_active := true
      dispatch_active := true
      fake_mode_set := true }

/-- Counterexample to claim C7 as stated: deactivating after an exception
propagated does remove the hook registrations, but it does not reset the
accumulators - the total runtime is still `5` ms and the pre-forward order
log still holds its entry after `__exit__`. -/
theorem exit_keeps_accumulators :
    (__exit__ (some PyError.runtimeError) stC7).user_hooks_registered =
        false ∧
      (__exit__ (some PyError.runtimeError) stC7).total_runtime = 5 ∧
      (5 : Rat) ≠ 0 ∧
      (__exit__ (some PyError.runtimeError) stC7).mod_fw_pre_order =
        ["l1"] ∧
      ("l1" :: ([] : List String)) ≠ [] :=
  ⟨rfl, rfl, by norm_num, rfl, by simp⟩

/-- Claim C7 as amended.  For every deactivation, regardless of whether an
exception propagated during the active window, the tracker hook
registrations are removed (user hooks cleared, tracker exited, dispatch
mode left); the accumulators (scope runtime records, the four order logs,
the total runtime) are not reset by the exit - they keep their values for
post-exit reporting - and they are reset by the next activation. -/
theorem exit_unregisters_hooks_amended (exc : Option PyError)
    (st : EstimatorState) :
    (__exit__ exc st).user_hooks_registered = false ∧
      (__exit__ exc st).tracker_active = false ∧
      (__exit__ exc st).dispatch_active = false ∧
      (__exit__ exc st).total_runtime = st.total_runtime ∧
      (__exit__ exc st).mod_runtimes = st.mod_runtimes ∧
      (__exit__ exc st).mod_fw_pre_order = st.mod_fw_pre_order ∧
      (__exit__ exc st).mod_bw_pre_order = st.mod_bw_pre_order ∧
      (__exit__ exc st).mod_fw_post_order = st.mod_fw_post_order ∧
      (__exit__ exc st).mod_bw_post_order = st.mod_bw_post_order ∧
      (__enter__ true st).1.total_runtime = 0 ∧
      ((__enter__ true st).1.mod_runtimes = fun _ _ => (0 : Rat)) ∧
      (__enter__ true st).1.mod_fw_pre_order = [] ∧
      (__enter__ true st).1.mod_bw_pre_order = [] ∧
      (__enter__ true st).1.mod_fw_post_order = [] ∧
      (__enter__ true st).1.mod_bw_post_order = [] ∧
      (__enter__ true st).1.user_hooks_registered = true :=
  ⟨rfl, rfl, rfl, rfl, rfl, rfl, rfl, rfl, rfl, rfl, rfl, rfl, rfl, rfl,
    rfl, rfl⟩

/-- Claim C8.  When no live fake-tensor mode is found, `__enter__` fails
with the assertion and returns before any statement runs: the state - every
accumulator, every order log, and the registration flags (so no operation
interception can begin) - is exactly the state before the attempted
activation. -/
theorem enter_without_fake_mode_asserts (st : EstimatorState) :
    __enter__ false st = (st, some PyError.assertionError) ∧
      (__enter__ false st).1.total_runtime = st.total_runtime ∧
      (__enter__ false st).1.mod_fw_pre_order = st.mod_fw_pre_order ∧
      (__enter__ false st).1.dispatch_active = st.dispatch_active :=
  ⟨rfl, rfl, rfl, rfl⟩

lemma roofline_nonignored_typeError (caps : DeviceCaps)
    (registry : FlopRegistry) (op : Op)
    (hcuda : caps.cuda_available = true)
    (hig : op.packet ∉ _IGNORE_OPS) :
    _roofline_estimate caps registry op = Except.error PyError.typeError := by
  simp [_roofline_estimate, hcuda, hig, pyClassmethodCall, pyCall]

lemma learned_nonignored_typeError (caps : DeviceCaps)
    (registry : FlopRegistry) (op : Op)
    (hcuda : caps.cuda_available = true)
    (hig : op.packet ∉ _IGNORE_OPS) :
    _learned_estimate caps registry op = Except.error PyError.typeError := by
  simp [_learned_estimate, hcuda, hig, pyClassmethodCall, pyCall]

/-- Claim C3.  Because `_get_transfer_time` is a `@classmethod` whose
parameter list `(flat_args_kwargs, flat_outs)` has no `cls` slot, the call
`cls._get_transfer_time(flat_args_kwargs, flat_outs)` made by the roofline
strategy (line 413) and by the learned strategy (line 679) passes three
arguments to a two-parameter function: for every intercepted operation with
CUDA available whose packet is outside the view/creation ignore set, both
strategies raise `TypeError` instead of returning a result/time pair. -/
theorem transfer_call_arity_typeerror (caps : DeviceCaps)
    (registry : FlopRegistry) (op : Op)
    (hcuda : caps.cuda_available = true)
    (hig : op.packet ∉ _IGNORE_OPS) :
    _roofline_estimate caps registry op = Except.error PyError.typeError ∧
      _learned_estimate caps registry op = Except.error PyError.typeError :=
  ⟨roofline_nonignored_typeError caps registry op hcuda hig,
    learned_nonignored_typeError caps registry op hcuda hig⟩

/-- A sample device capability record: CUDA present, one peta-FLOP per
second for every dtype, bandwidth 100 bytes per nanosecond. -/
def capsA : DeviceCaps :=
  { cuda_available := true
    get_device_tflops := fun _ => 1
    gpu_memory_bandwidth := 100 }

/-- The external `mm_flop` formula of `torch.utils.flop_counter` on the
flattened arguments: for inputs of shapes `(m, k)` and `(k, n)` the flop
count is `m * k * 2 * n`. -/
def mm_flop : List PyVal → List PyVal → Rat := fun args _ =>
  match args with
  | PyVal.tensor a :: PyVal.tensor b :: _ =>
      match a.shape, b.shape with
      | [m, k], [_, n] => (m : Rat) * k * 2 * n
      | _, _ => 0
  | _ => 0

/-- A sample flop-formula registry holding exactly the `aten.mm` entry. -/
def registryMM : FlopRegistry := fun p =>
  match p with
  | Packet.mm => some mm_flop
  | _ => none

/-- An elementwise multiply used to witness claim C3: not a view, not a
creation op. -/
def mulOpC3 : Op :=
  { packet := Packet.mul
    inplaceView := false
    flatArgs := [PyVal.tensor ⟨[4, 4], Dtype.float32, 64⟩,
                 PyVal.tensor ⟨[4, 4], Dtype.float32, 64⟩]
    flatOuts := [PyVal.tensor ⟨[4, 4], Dtype.float32, 64⟩]
    realExec := none
    realOuts := []
    cuda_time := 0 }

/-- Witness for claim C3 at the concrete multiply `mulOpC3`. -/
theorem transfer_call_arity_typeerror_witness :
    capsA.cuda_available = true ∧ Packet.mul ∉ _IGNORE_OPS ∧
      (_roofline_estimate capsA registryMM mulOpC3 =
          Except.error PyError.typeError ∧
        _learned_estimate capsA registryMM mulOpC3 =
          Except.error PyError.typeError) :=
  ⟨rfl, by decide,
    transfer_call_arity_typeerror capsA registryMM mulOpC3 rfl (by decide)⟩

/-- The matrix multiply of spec section 8: shapes `(128, 64) x (64, 32)` in
`float32` (4 bytes per element), under a symbolic execution context. -/
def mmOpC1 : Op :=
  { packet := Packet.mm
    inplaceView := false
    flatArgs := [PyVal.tensor ⟨[128, 64], Dtype.float32, 32768⟩,
                 PyVal.tensor ⟨[64, 32], Dtype.float32, 8192⟩]
    flatOuts := [PyVal.tensor ⟨[128, 32], Dtype.float32, 16384⟩]
    realExec := none
    realOuts := []
    cuda_time := 0 }

/-- Claim C1, evaluated on the code at the failing input: the matrix
multiply of shapes `(128, 64) x (64, 32)` has a registered flop formula,
yet `_roofline_estimate` raises `TypeError` - through the bound call
`cls._get_transfer_time(flat_args_kwargs, flat_outs)` of line 413, which
passes three arguments to the two-parameter `@classmethod` of lines 287-288
- instead of returning `max(transfer_time, compute_time)` milliseconds as
the claim (and the docstrings of lines 296-297 and 342-344) state. -/
theorem mm_roofline_raises_typeerror :
    (registryMM Packet.mm).isSome = true ∧
      _roofline_estimate capsA registryMM mmOpC1 =
        Except.error PyError.typeError :=
  ⟨rfl, rfl⟩

/-- An elementwise add used against claim C10: no registered flop formula,
packet outside the ignore set. -/
def addOpC10 : Op :=
  { packet := Packet.add
    inplaceView := false
    flatArgs := [PyVal.tensor ⟨[8, 8], Dtype.float32, 256⟩,
                 PyVal.tensor ⟨[8, 8], Dtype.float32, 256⟩]
    flatOuts := [PyVal.tensor ⟨[8, 8], Dtype.float32, 256⟩]
    realExec := none
    realOuts := []
    cuda_time := 0 }

/-- Claim C10, evaluated on the code at the failing input: for an operation
whose packet has no registered flop formula and is outside the ignore set,
`_roofline_estimate` raises `TypeError` from the misdeclared classmethod
call instead of reducing to the transfer time as the claim (and the
simplified-formula comment of lines 401-404 together with the `return 0.0`
of line 380) states. -/
theorem no_flop_formula_roofline_raises_typeerror :
    registryMM Packet.add = none ∧
      _roofline_estimate capsA registryMM addOpC10 =
        Except.error PyError.typeError :=
  ⟨rfl, rfl⟩

/-- Claim C9.  Under the roofline and learned strategies, an intercepted
operation whose outputs contain more than one distinct floating precision
never yields a time: the estimate fails for that operation.  The packet is
required to be outside the view/creation ignore set, restoring the context
of the spec (its single-precision rule is stated inside the estimation
branch; view and creation kinds propagate a single dtype, and the code
returns 0 ms for them without examining precisions).  With the current
argument-binding defect the failure is the `TypeError` of the transfer-time
call, raised before the single-dtype assertion of lines 364-368 would be
reached; either way no time is returned. -/
theorem ambiguous_out_dtype_fails (caps : DeviceCaps)
    (registry : FlopRegistry) (op : Op)
    (hcuda : caps.cuda_available = true)
    (hig : op.packet ∉ _IGNORE_OPS)
    (hamb : 2 ≤ (outDtypes op).length) :
    _roofline_estimate caps registry op = Except.error PyError.typeError ∧
      _learned_estimate caps registry op = Except.error PyError.typeError :=
  ⟨roofline_nonignored_typeError caps registry op hcuda hig,
    learned_nonignored_typeError caps registry op hcuda hig⟩

/-- A batch-norm-like operation whose outputs mix `float16` and `float32`
precisions, used to witness claim C9. -/
def bnOpC9 : Op :=
  { packet := Packet.batch_norm
    inplaceView := false
    flatArgs := [PyVal.tensor ⟨[2, 3], Dtype.float16, 512⟩]
    flatOuts := [PyVal.tensor ⟨[2, 3], Dtype.float16, 512⟩,
                 PyVal.tensor ⟨[3], Dtype.float32, 512⟩,
                 PyVal.tensor ⟨[3], Dtype.float32, 512⟩]
    realExec := none
    realOuts := []
    cuda_time := 0 }

/-- Witness for claim C9 at `bnOpC9`, whose outputs hold two distinct
floating precisions. -/
theorem ambiguous_out_dtype_fails_witness :
    capsA.cuda_available = true ∧ Packet.batch_norm ∉ _IGNORE_OPS ∧
      2 ≤ (outDtypes bnOpC9).length ∧
      (_roofline_estimate capsA registryMM bnOpC9 =
          Except.error PyError.typeError ∧
        _learned_estimate capsA registryMM bnOpC9 =
          Except.error PyError.typeError) :=
  ⟨rfl, by decide, by decide,
    ambiguous_out_dtype_fails capsA registryMM bnOpC9 rfl (by decide)
      (by decide)⟩

lemma map_outs_aliased (outs : List RealOut)
    (h : RealOut.aliased ∈ outs) :
    map_outs outs = Except.error PyError.notImplementedError := by
  induction outs with
  | nil => cases h
  | cons o os ih =>
      rcases List.mem_cons.mp h with h1 | h2
      · subst h1
        simp [map_outs, map_out]
      · cases o
        all_goals simp [map_outs, map_out, ih h2]

/-- Claim C4 as amended.  With a live fake mode, every view packet yields
the symbolic result with exactly 0 ms under all three strategies; every
trivial-creation packet yields the symbolic result with exactly 0 ms under
the roofline and learned strategies.  (The benchmark strategy skips only
`_VIEW_OPS` - line 273 - so creation packets are benchmarked there, see the
counterexample `create_op_benchmarked_nonzero`.) -/
theorem ignore_ops_zero_ms_amended (caps : DeviceCaps)
    (registry : FlopRegistry) (nf : Finset Packet) (op : Op)
    (hcuda : caps.cuda_available = true) :
    (op.packet ∈ _VIEW_OPS →
        (_benchmark_estimate true nf op).1 =
            Except.ok ((op.flatOuts, 0), nf) ∧
          _roofline_estimate caps registry op = Except.ok (op.flatOuts, 0) ∧
          _learned_estimate caps registry op = Except.ok (op.flatOuts, 0)) ∧
      (op.packet ∈ _CREATE_OPS →
        _roofline_estimate caps registry op = Except.ok (op.flatOuts, 0) ∧
          _learned_estimate caps registry op = Except.ok (op.flatOuts, 0)) := by
  constructor
  · intro hv
    have hig : op.packet ∈ _IGNORE_OPS := List.mem_append_left _ hv
    refine ⟨?_, ?_, ?_⟩
    · simp [_benchmark_estimate, hv]
    · simp [_roofline_estimate, hcuda, hig]
    · simp [_learned_estimate, hcuda, hig]
  · intro hc
    have hig : op.packet ∈ _IGNORE_OPS := List.mem_append_right _ hc
    exact ⟨by simp [_roofline_estimate, hcuda, hig],
      by simp [_learned_estimate, hcuda, hig]⟩

/-- A transpose (view packet) used to witness the amended claim C4. -/
def viewOpC4 : Op :=
  { packet := Packet.transpose
    inplaceView := false
    flatArgs := [PyVal.tensor ⟨[4, 8], Dtype.float32, 128⟩]
    flatOuts := [PyVal.tensor ⟨[8, 4], Dtype.float32, 128⟩]
    realExec := none
    realOuts := []
    cuda_time := 0 }

/-- A creation op (`aten.randn`) used to witness the amended claim C4. -/
def randnRooflineOpC4 : Op :=
  { packet := Packet.randn
    inplaceView := false
    flatArgs := [PyVal.scalar 4, PyVal.scalar 4]
    flatOuts := [PyVal.tensor ⟨[4, 4], Dtype.float32, 64⟩]
    realExec := none
    realOuts := []
    cuda_time := 0 }

/-- Witness for the amended claim C4 at a concrete view packet and a
concrete creation packet. -/
theorem ignore_ops_zero_ms_amended_witness :
    capsA.cuda_available = true ∧ Packet.transpose ∈ _VIEW_OPS ∧
      Packet.randn ∈ _CREATE_OPS ∧
      ((_benchmark_estimate true ∅ viewOpC4).1 =
          Except.ok ((viewOpC4.flatOuts, 0), ∅) ∧
        _roofline_estimate capsA registryMM viewOpC4 =
          Except.ok (viewOpC4.flatOuts, 0) ∧
        _learned_estimate capsA registryMM viewOpC4 =
          Except.ok (viewOpC4.flatOuts, 0)) ∧
      (_roofline_estimate capsA registryMM randnRooflineOpC4 =
          Except.ok (randnRooflineOpC4.flatOuts, 0) ∧
        _learned_estimate capsA registryMM randnRooflineOpC4 =
          Except.ok (randnRooflineOpC4.flatOuts, 0)) :=
  ⟨rfl, by decide, by decide,
    (ignore_ops_zero_ms_amended capsA registryMM ∅ viewOpC4 rfl).1
      (by decide),
    (ignore_ops_zero_ms_amended capsA registryMM ∅ randnRooflineOpC4
      rfl).2 (by decide)⟩

/-- The tensor created by the benchmarked `aten.randn` of the C4
counterexample. -/
def tRandC4 : Tensor := ⟨[4, 4], Dtype.float32, 64⟩

/-- A creation op under the benchmark strategy, whose three timed real
iterations take 6 ms in total. -/
def randnOpC4 : Op :=
  { packet := Packet.randn
    inplaceView := false
    flatArgs := [PyVal.scalar 4, PyVal.scalar 4]
    flatOuts := [PyVal.tensor tRandC4]
    realExec := none
    realOuts := [RealOut.fresh tRandC4]
    cuda_time := 6 }

/-- Counterexample to claim C4 as stated: `aten.randn` is in the
trivial-creation set, yet the benchmark strategy does not skip it
(`_benchmark_estimate` tests membership in `_VIEW_OPS` only, line 273): it
realizes and times the kernel and attributes the mean 2 ms, not 0 ms. -/
theorem create_op_benchmarked_nonzero :
    Packet.randn ∈ _CREATE_OPS ∧
      (_benchmark_estimate true ∅ randnOpC4).1 =
        Except.ok (([PyVal.tensor tRandC4], 2), ∅) ∧
      (2 : Rat) ≠ 0 :=
  ⟨by decide, by
    have hnv : Packet.randn ∉ _VIEW_OPS := by decide
    norm_num [_benchmark_estimate, _maybe_run_and_benchmark_fallback_kernel,
      map_outs, map_out, randnOpC4, hnv],
    by norm_num⟩

/-- Claim C5.  During benchmarking of a non-view, non-inplace-tagged
operation: (i) if the real run succeeds but some real output shares storage
with an input without being a recorded input realization (`aliased`), the
strategy recovers locally - the `NotImplementedError` raised by `map_out`
is caught, the packet is added to the unsupported-fallback set, the
operation is executed symbolically and 0 ms is returned, with no exception
surfacing; (ii) any other failure of realization or benchmarking
propagates to the caller. -/
theorem alias_fallback_recovery :
    (∀ (nf : Finset Packet) (op : Op),
        op.packet ∉ _VIEW_OPS → op.inplaceView = false →
        op.realExec = none → RealOut.aliased ∈ op.realOuts →
        (_benchmark_estimate true nf op).1 =
          Except.ok ((op.flatOuts, 0), insert op.packet nf)) ∧
      ∀ (nf : Finset Packet) (op : Op) (e : PyError),
        op.packet ∉ _VIEW_OPS → op.inplaceView = false →
        op.realExec = some e → e ≠ PyError.notImplementedError →
        (_benchmark_estimate true nf op).1 = Except.error e := by
  constructor
  · intro nf op hv hip hre hal
    simp [_benchmark_estimate, hv, _maybe_run_and_benchmark_fallback_kernel,
      hip, hre, map_outs_aliased op.realOuts hal]
  · intro nf op e hv hip hre hne
    cases e <;>
      simp_all [_benchmark_estimate, _maybe_run_and_benchmark_fallback_kernel]

/-- A non-view operation whose real output aliases input storage without a
traceable handle, used to witness part (i) of claim C5. -/
def aliasOpC5 : Op :=
  { packet := Packet.add
    inplaceView := false
    flatArgs := [PyVal.tensor ⟨[2], Dtype.float32, 8⟩]
    flatOuts := [PyVal.tensor ⟨[2], Dtype.float32, 8⟩]
    realExec := none
    realOuts := [RealOut.aliased]
    cuda_time := 3 }

/-- A non-view operation whose real execution fails with an out-of-memory
error, used to witness part (ii) of claim C5. -/
def oomOpC5 : Op :=
  { packet := Packet.bmm
    inplaceView := false
    flatArgs := [PyVal.tensor ⟨[2, 2, 2], Dtype.float32, 32⟩]
    flatOuts := [PyVal.tensor ⟨[2, 2, 2], Dtype.float32, 32⟩]
    realExec := some PyError.outOfMemoryError
    realOuts := []
    cuda_time := 0 }

/-- Witness for claim C5 at `aliasOpC5` (local recovery) and `oomOpC5`
(propagation). -/
theorem alias_fallback_recovery_witness :
    (Packet.add ∉ _VIEW_OPS ∧ aliasOpC5.inplaceView = false ∧
        aliasOpC5.realExec = none ∧
        RealOut.aliased ∈ aliasOpC5.realOuts ∧
        (_benchmark_estimate true ∅ aliasOpC5).1 =
          Except.ok ((aliasOpC5.flatOuts, 0), insert Packet.add ∅)) ∧
      Packet.bmm ∉ _VIEW_OPS ∧
      oomOpC5.realExec = some PyError.outOfMemoryError ∧
      PyError.outOfMemoryError ≠ PyError.notImplementedError ∧
      (_benchmark_estimate true ∅ oomOpC5).1 =
        Except.error PyError.outOfMemoryError :=
  ⟨⟨by decide, rfl, rfl, by decide,
      alias_fallback_recovery.1 ∅ aliasOpC5 (by decide) rfl rfl
        (by decide)⟩,
    by decide, rfl, by decide,
    alias_fallback_recovery.2 ∅ oomOpC5 PyError.outOfMemoryError
      (by decide) rfl rfl (by decide)⟩

/-- Claim C6.  An operation tagged as mutating input metadata in place
(`torch.Tag.inplace_view`) is never realized by the benchmark strategy:
the fallback kernel rejects it (line 185-186) before `to_real_tensor`
runs, so the list of realized tensors is empty whatever the fake-mode
state, and (with a live fake mode) the operation is executed purely
symbolically with 0 ms attributed. -/
theorem inplace_view_never_realized (fm : Bool) (nf : Finset Packet)
    (op : Op) (hip : op.inplaceView = true) :
    (_benchmark_estimate fm nf op).2 = [] ∧
      (_benchmark_estimate true nf op).1.map Prod.fst =
        Except.ok (op.flatOuts, 0) := by
  constructor
  · cases fm
    · simp [_benchmark_estimate]
    · by_cases hv : op.packet ∈ _VIEW_OPS
      · simp [_benchmark_estimate, hv]
      · simp [_benchmark_estimate, hv,
          _maybe_run_and_benchmark_fallback_kernel, hip]
  · by_cases hv : op.packet ∈ _VIEW_OPS
    · simp [_benchmark_estimate, hv, Except.map]
    · simp [_benchmark_estimate, hv,
        _maybe_run_and_benchmark_fallback_kernel, hip, Except.map]

/-- A non-view operation carrying the inplace-view tag, used to witness
claim C6. -/
def inplaceOpC6 : Op :=
  { packet := Packet.mul
    inplaceView := true
    flatArgs := [PyVal.tensor ⟨[2], Dtype.float32, 8⟩]
    flatOuts := [PyVal.tensor ⟨[2], Dtype.float32, 8⟩]
    realExec := none
    realOuts := []
    cuda_time := 9 }

/-- Witness for claim C6 at `inplaceOpC6`. -/
theorem inplace_view_never_realized_witness :
    inplaceOpC6.inplaceView = true ∧
      (_benchmark_estimate true ∅ inplaceOpC6).2 = [] ∧
      (_benchmark_estimate true ∅ inplaceOpC6).1.map Prod.fst =
        Except.ok (inplaceOpC6.flatOuts, 0) :=
  ⟨rfl, (inplace_view_never_realized true ∅ inplaceOpC6 rfl).1,
    (inplace_view_never_realized true ∅ inplaceOpC6 rfl).2⟩
